import Mathlib

/-!
Verification development for the slander-detection pipeline.

The Python sources are shallowly embedded:
* numeric scores (Python floats holding values in small ranges) are modelled
  as rationals;
* the language-model collaborator is modelled as an explicit behaviour
  (`Except Unit String`, error = the call raised) supplied per attempt;
* `yaml.safe_load` is an external library, modelled as an abstract
  `String → Option _` parameter returning the dictionary shape the code
  inspects (`none` covers a parse error and a falsy result alike);
* fallible Python code (pydantic validation, retry bodies) returns `Except`.
-/

namespace SlanderDemo

/-! ### `_clean_yaml_response` / inline YAML cleaning

The Python code cleans every model response with
`s.replace("```yaml", "").replace("```", "").strip()`
(`query_generator.py` line 59, `slander_analyzer.py` lines 94-96 and 219-221).
`str.replace` scans left to right, removing each non-overlapping occurrence
and resuming the scan right after it; `strip` drops whitespace at both ends.
-/

/-- The backtick character. -/
def tick : Char := Char.ofNat 96

/-- The three-backtick fence marker, the second pattern removed. -/
def tick3 : List Char := [tick, tick, tick]

/-- The characters of the first pattern removed. -/
def tickYaml : List Char := tick3 ++ ['y', 'a', 'm', 'l']

/-- Left-to-right removal of every occurrence of the 3-character fence
marker, exactly as Python `s.replace("```", "")` does. -/
def removeTicks : List Char → List Char
  | [] => []
  | [c] => [c]
  | [c, d] => [c, d]
  | c :: d :: e :: cs =>
    if c = tick ∧ d = tick ∧ e = tick then removeTicks cs
    else c :: removeTicks (d :: e :: cs)

/-- Left-to-right removal of every occurrence of the 7-character marker,
exactly as Python `s.replace("```yaml", "")` does. -/
def removeTickYaml : List Char → List Char
  | c1 :: c2 :: c3 :: c4 :: c5 :: c6 :: c7 :: cs =>
    if c1 = tick ∧ c2 = tick ∧ c3 = tick ∧ c4 = 'y' ∧ c5 = 'a' ∧ c6 = 'm' ∧ c7 = 'l'
    then removeTickYaml cs
    else c1 :: removeTickYaml (c2 :: c3 :: c4 :: c5 :: c6 :: c7 :: cs)
  | s => s

/-- Python `str.strip()`: whitespace dropped from both ends (modelled with
Lean's ASCII whitespace predicate). -/
def pyStrip (s : List Char) : List Char :=
  List.rdropWhile Char.isWhitespace (List.dropWhile Char.isWhitespace s)

/-- The full cleaning step applied to every model response. -/
def cleanChars (s : List Char) : List Char :=
  pyStrip (removeTicks (removeTickYaml s))

/-- `_clean_yaml_response` lifted to `String`. -/
def cleanYamlResponse (s : String) : String :=
  ⟨cleanChars s.data⟩

/-- Number of leading backticks of a character list. -/
def headTicks : List Char → Nat
  | [] => 0
  | c :: cs => if c = tick then headTicks cs + 1 else 0


/-! ### Data model of `slander_analyzer.py` (lines 10-19)

Scores are Python floats on a 0-1 scale; they are modelled as rationals.
Note the pydantic models declare no range validators. -/

structure SlanderAnalysisResult where
  risk_score : ℚ
  context_analysis : String
  confidence_score : ℚ
deriving DecidableEq

structure OverallAnalysis where
  combined_risk_score : ℚ
  pattern_analysis : String
  cross_references : String
deriving DecidableEq

/-- A raw YAML scalar as it reaches pydantic validation: the key can be
absent, explicitly null, a string, a number, or anything else (lists,
nested maps, ... — every such value fails both a `str` and a `float`
field, so one constructor suffices for them). -/
inductive YVal where
  | missing
  | null
  | str (s : String)
  | num (q : ℚ)
  | invalid
deriving DecidableEq

/-- One entry of the model's `content_analyses` list, keyed by the fields
`SlanderAnalysisResult` declares.  The extra keys the prompt requests
(`content_index`, `language`) are ignored by pydantic's default config, so
they are not carried here. -/
structure RawContentAnalysis where
  risk_score : YVal
  context_analysis : YVal
  confidence_score : YVal
deriving DecidableEq

/-- `SlanderAnalysisResult(**content_analysis)` (line 237): every field is
required and type-checked, but no 0-1 range check exists.  Numeric-string
coercion for float fields is outside the modelled fragment. -/
def SlanderAnalysisResult.ofRaw (r : RawContentAnalysis) :
    Except String SlanderAnalysisResult :=
  match r.risk_score, r.context_analysis, r.confidence_score with
  | YVal.num rs, YVal.str ca, YVal.num cs => Except.ok ⟨rs, ca, cs⟩
  | _, _, _ => Except.error "validation error for SlanderAnalysisResult"

/-- The parsed top level of an `analyze_multiple_texts` response.  `none`
for `content_analyses` covers both an absent key and a non-list value
(iterating a non-list raises, aborting the attempt the same way). -/
structure AnalysisDict where
  content_analyses : Option (List RawContentAnalysis)

/-- One entry of the `texts` argument (a `Dict[str, str]`; only the keys
the formatting step reads are named, each possibly absent). -/
structure TextData where
  source : Option String := none
  author : Option String := none
  date : Option String := none
  text : Option String := none
  engagement : Option String := none
deriving DecidableEq

def isError {ε α : Type} (e : Except ε α) : Bool :=
  match e with
  | Except.error _ => true
  | Except.ok _ => false

/-! ### `SlanderAnalyzer.calculate_overall_analysis` (lines 26-121) -/

/-- The weighted-average computation of lines 37-44. -/
def weightedRisk (results : List SlanderAnalysisResult) : ℚ :=
  let totalWeight := (results.map (fun r => r.confidence_score)).sum
  if totalWeight = 0 then
    (results.map (fun r => r.risk_score)).sum / results.length
  else
    (results.map (fun r => r.risk_score * r.confidence_score)).sum / totalWeight

/-- The parsed top level of the pattern-analysis response.  Each field of
the dictionary is read with `.get(key, default)`. -/
structure PatternDict where
  pattern_analysis : YVal
  cross_references : YVal

/-- `analysis_dict.get(key, default)` followed by pydantic `str`
validation: an absent key takes the default, a string passes through, any
other present value makes `OverallAnalysis(...)` raise (`none`). -/
def strFieldOrDefault (v : YVal) (dflt : String) : Option String :=
  match v with
  | YVal.missing => some dflt
  | YVal.str s => some s
  | _ => none

def errorOverall (combinedRisk : ℚ) : OverallAnalysis :=
  ⟨combinedRisk, "Error generating pattern analysis.",
    "Error generating cross-reference analysis."⟩

/-- `calculate_overall_analysis`.  `invoke` is the single model call
(`Except.error` = the call raised); `parse` is `yaml.safe_load` on the
cleaned response, `none` covering a parse error and a falsy result.  The
second component counts model invocations. -/
def calculateOverallAnalysis (invoke : Except Unit String)
    (parse : String → Option PatternDict)
    (results : List SlanderAnalysisResult) : OverallAnalysis × Nat :=
  if results.isEmpty then
    (⟨0, "No content analyzed.", "No content analyzed."⟩, 0)
  else
    let combinedRisk := weightedRisk results
    match invoke with
    | Except.error _ => (errorOverall combinedRisk, 1)
    | Except.ok content =>
      if content = "" then (errorOverall combinedRisk, 1)
      else
        let yamlStr := cleanYamlResponse content
        if yamlStr = "" then (errorOverall combinedRisk, 1)
        else
          match parse yamlStr with
          | none => (errorOverall combinedRisk, 1)
          | some d =>
            match strFieldOrDefault d.pattern_analysis "No pattern analysis available.",
                strFieldOrDefault d.cross_references "No cross-reference analysis available." with
            | some pa, some cr => (⟨combinedRisk, pa, cr⟩, 1)
            | _, _ => (errorOverall combinedRisk, 1)

/-! ### `SlanderAnalyzer.analyze_multiple_texts` (lines 123-258) -/

/-- The degraded assessment built once per input text when every retry has
failed (lines 251-258). -/
def defaultFailedAssessment : SlanderAnalysisResult :=
  ⟨0, "Analysis failed after multiple attempts. Please try again.", 0⟩

/-- The body of one retry attempt (lines 210-239): invoke, check
non-empty, clean, parse, check the top-level key, then build one
`SlanderAnalysisResult` per entry (aborting on the first bad entry). -/
def runAnalysisAttempt (parse : String → Option AnalysisDict)
    (resp : Except Unit String) : Except String (List SlanderAnalysisResult) :=
  match resp with
  | Except.error _ => Except.error "LLM invocation raised"
  | Except.ok content =>
    if content = "" then Except.error "Empty response from LLM"
    else
      let yamlStr := cleanYamlResponse content
      if yamlStr = "" then Except.error "Empty YAML string after cleaning"
      else
        match parse yamlStr with
        | none => Except.error "Empty dictionary after YAML parsing"
        | some d =>
          match d.content_analyses with
          | none => Except.error "Missing required top-level key: content_analyses"
          | some cas => cas.mapM SlanderAnalysisResult.ofRaw

/-- The retry loop of `analyze_multiple_texts`: `attempt` is the current
0-based index, `fuel` the number of attempts left (`max_retries = 3`
initially).  A successful body returns its list; once the last attempt
fails the degraded per-text fallback is returned. -/
def analyzeLoop (parse : String → Option AnalysisDict)
    (invoke : Nat → Except Unit String) (texts : List TextData) :
    Nat → Nat → List SlanderAnalysisResult
  | _, 0 => texts.map fun _ => defaultFailedAssessment
  | attempt, fuel + 1 =>
    match runAnalysisAttempt parse (invoke attempt) with
    | Except.ok rs => rs
    | Except.error _ =>
      if fuel = 0 then texts.map fun _ => defaultFailedAssessment
      else analyzeLoop parse invoke texts (attempt + 1) fuel

/-- `analyze_multiple_texts` with the model collaborator abstracted:
`invoke i` is the response of the `i`-th attempt. -/
def analyzeMultipleTexts (parse : String → Option AnalysisDict)
    (invoke : Nat → Except Unit String) (texts : List TextData) :
    List SlanderAnalysisResult :=
  analyzeLoop parse invoke texts 0 3

/-! ### Dates (`datetime.strptime(s, "%Y-%m-%d")` and pydantic date coercion) -/

structure Date where
  year : Nat
  month : Nat
  day : Nat
deriving DecidableEq

def isLeapYear (y : Nat) : Bool :=
  (y % 4 = 0 && y % 100 ≠ 0) || y % 400 = 0

def daysInMonth (y m : Nat) : Nat :=
  if m = 2 then (if isLeapYear y then 29 else 28)
  else if m = 4 ∨ m = 6 ∨ m = 9 ∨ m = 11 then 30
  else 31

/-- Split a character list at every dash, keeping empty groups (the
behaviour of splitting on a separator). -/
def splitOnDash : List Char → List (List Char)
  | [] => [[]]
  | c :: cs =>
    if c = '-' then [] :: splitOnDash cs
    else
      match splitOnDash cs with
      | g :: gs => (c :: g) :: gs
      | [] => [[c]]

/-- Decimal value of a digit list. -/
def digitsToNat (l : List Char) : Nat :=
  l.foldl (fun a c => a * 10 + (c.toNat - 48)) 0

/-- A group of `lo` to `hi` decimal digits. -/
def parseDigits (l : List Char) (lo hi : Nat) : Option Nat :=
  if lo ≤ l.length ∧ l.length ≤ hi ∧ l.all Char.isDigit then some (digitsToNat l)
  else none

/-- `strptime(s, "%Y-%m-%d")`: three dash-separated digit groups making a
valid proleptic-Gregorian calendar date (year at least 1). -/
def parseDate (s : String) : Option Date :=
  match splitOnDash s.data with
  | [ys, ms, ds] =>
    match parseDigits ys 1 4, parseDigits ms 1 2, parseDigits ds 1 2 with
    | some y, some m, some d =>
      if 1 ≤ y ∧ 1 ≤ m ∧ m ≤ 12 ∧ 1 ≤ d ∧ d ≤ daysInMonth y m then some ⟨y, m, d⟩
      else none
    | _, _, _ => none
  | _ => none

/-- Dates compare lexicographically; with `month ≤ 12` and `day ≤ 31` this
numeric key realises that order. -/
def Date.key (d : Date) : Nat := d.year * 10000 + d.month * 100 + d.day

/-! ### Data model of `query_generator.py` (lines 11-41) -/

structure TwitterSearchQuery where
  query : String
  description : String
  «section» : Option String
  start_date : Option Date
  end_date : Option Date
  language : Option String
deriving DecidableEq

structure YouTubeSearchQuery where
  query : String
  description : String
deriving DecidableEq

structure SearchQueries where
  twitter : List TwitterSearchQuery
  youtube : List YouTubeSearchQuery
deriving DecidableEq

/-- `TwitterSearchQuery.validate_section` (lines 19-24): a truthy value
outside {top, latest} becomes "latest"; `None` and `""` pass through. -/
def validateSectionQG (v : Option String) : Option String :=
  match v with
  | some s => if s ≠ "" ∧ s ≠ "top" ∧ s ≠ "latest" then some "latest" else some s
  | none => none

/-- `TwitterSearchQuery.validate_language` (lines 26-31): a truthy value
whose length is not 2 becomes "ja". -/
def validateLanguageQG (v : Option String) : Option String :=
  match v with
  | some s => if s ≠ "" ∧ s.length ≠ 2 then some "ja" else some s
  | none => none

/-- pydantic validation of a required `str` field. -/
def reqStrField (v : YVal) : Except String String :=
  match v with
  | YVal.str s => Except.ok s
  | _ => Except.error "field required or not a string"

/-- pydantic validation of an `Optional[str]` field defaulting to `None`. -/
def optStrField (v : YVal) : Except String (Option String) :=
  match v with
  | YVal.missing => Except.ok none
  | YVal.null => Except.ok none
  | YVal.str s => Except.ok (some s)
  | _ => Except.error "not a string"

/-- pydantic validation of an `Optional[datetime]` field: calendar-date
strings are the only modelled inhabitants (the only form this pipeline
produces; full timestamps and YAML date objects behave alike). -/
def optDateField (v : YVal) : Except String (Option Date) :=
  match v with
  | YVal.missing => Except.ok none
  | YVal.null => Except.ok none
  | YVal.str s =>
    match parseDate s with
    | some d => Except.ok (some d)
    | none => Except.error "invalid datetime"
  | _ => Except.error "invalid datetime"

/-- One raw entry of the model's `twitter` list. -/
structure RawTwitterQuery where
  query : YVal := YVal.missing
  description : YVal := YVal.missing
  «section» : YVal := YVal.missing
  start_date : YVal := YVal.missing
  end_date : YVal := YVal.missing
  language : YVal := YVal.missing
deriving DecidableEq

/-- One raw entry of the model's `youtube` list. -/
structure RawYouTubeQuery where
  query : YVal := YVal.missing
  description : YVal := YVal.missing
deriving DecidableEq

/-- `TwitterSearchQuery(**raw)`: required strings, optional fields with
their normalizing validators, no cross-field date check. -/
def TwitterSearchQuery.ofRaw (r : RawTwitterQuery) :
    Except String TwitterSearchQuery := do
  let q ← reqStrField r.query
  let desc ← reqStrField r.description
  let sec ← optStrField r.«section»
  let sd ← optDateField r.start_date
  let ed ← optDateField r.end_date
  let lang ← optStrField r.language
  Except.ok ⟨q, desc, validateSectionQG sec, sd, ed, validateLanguageQG lang⟩

def YouTubeSearchQuery.ofRaw (r : RawYouTubeQuery) :
    Except String YouTubeSearchQuery := do
  let q ← reqStrField r.query
  let desc ← reqStrField r.description
  Except.ok ⟨q, desc⟩

/-- The parsed top level of a `generate_queries` response; `none` covers
an absent key (and a non-list value, which likewise aborts the attempt). -/
structure QueriesDict where
  twitter : Option (List RawTwitterQuery)
  youtube : Option (List RawYouTubeQuery)

/-- Lines 187-189: `setdefault` of the computed default window on each raw
twitter entry — only a truly absent key is filled in. -/
def setDefaultDates (dd : String × String) (r : RawTwitterQuery) : RawTwitterQuery :=
  { r with
    start_date := if r.start_date = YVal.missing then YVal.str dd.1 else r.start_date,
    end_date := if r.end_date = YVal.missing then YVal.str dd.2 else r.end_date }

/-! ### `QueryGenerator.generate_queries` (lines 61-203) -/

/-- The body of one retry attempt (lines 165-192). -/
def runQueryAttempt (dd : String × String) (parse : String → Option QueriesDict)
    (resp : Except Unit String) : Except String SearchQueries :=
  match resp with
  | Except.error _ => Except.error "LLM invocation raised"
  | Except.ok content =>
    if content = "" then Except.error "Empty response from LLM"
    else
      let yamlStr := cleanYamlResponse content
      if yamlStr = "" then Except.error "Empty YAML string after cleaning"
      else
        match parse yamlStr with
        | none => Except.error "Empty dictionary after YAML parsing"
        | some qd =>
          match qd.twitter, qd.youtube with
          | some tw, some yt => do
            let tqs ← (tw.map (setDefaultDates dd)).mapM TwitterSearchQuery.ofRaw
            let yqs ← yt.mapM YouTubeSearchQuery.ofRaw
            Except.ok ⟨tqs, yqs⟩
          | _, _ =>
            Except.error "Missing required keys 'twitter' or 'youtube' in response"

/-- The retry loop (`max_retries = 3`); the second result component counts
model invocations. -/
def queryLoop (dd : String × String) (parse : String → Option QueriesDict)
    (invoke : Nat → Except Unit String) : Nat → Nat → SearchQueries × Nat
  | attempt, 0 => (⟨[], []⟩, attempt)
  | attempt, fuel + 1 =>
    match runQueryAttempt dd parse (invoke attempt) with
    | Except.ok r => (r, attempt + 1)
    | Except.error _ =>
      if fuel = 0 then (⟨[], []⟩, attempt + 1)
      else queryLoop dd parse invoke (attempt + 1) fuel

/-- `generate_queries` with the collaborators abstracted: `dd` is the
computed default date window (`_get_default_dates`, built from the wall
clock), `invoke i` the response of the `i`-th attempt. -/
def generateQueries (dd : String × String) (parse : String → Option QueriesDict)
    (invoke : Nat → Except Unit String) : SearchQueries × Nat :=
  queryLoop dd parse invoke 0 3

/-! ### `twitter_tool.py`: `TwitterSearchParams` validators -/

namespace TwitterSearchParams

/-- `TwitterSearchParams.validate_section` (lines 60-65): unlike the
query-generator variant, a truthy value outside {top, latest} raises. -/
def validateSection (v : Option String) : Except String (Option String) :=
  match v with
  | some s =>
    if s ≠ "" ∧ s ≠ "top" ∧ s ≠ "latest" then
      Except.error "section must be either 'top' or 'latest'"
    else Except.ok (some s)
  | none => Except.ok none

/-- One `if self.X: try strptime ... except: raise` statement of
`validate_dates`: a truthy string that fails to parse raises. -/
def checkFormat (v : Option String) (msg : String) : Except String Unit :=
  match v with
  | some s => if s ≠ "" ∧ (parseDate s).isNone then Except.error msg else Except.ok ()
  | none => Except.ok ()

/-- The final `if self.start_date and self.end_date` statement of
`validate_dates`: with both strings truthy (and, as just established,
well-formed), a start date after the end date raises. -/
def checkOrder (start_date end_date : Option String) : Except String Unit :=
  match start_date, end_date with
  | some s, some e =>
    if s ≠ "" ∧ e ≠ "" then
      match parseDate s, parseDate e with
      | some ds, some de =>
        if de.key < ds.key then Except.error "start_date must be before end_date"
        else Except.ok ()
      | _, _ => Except.ok ()
    else Except.ok ()
  | _, _ => Except.ok ()

/-- `TwitterSearchParams.validate_dates` (lines 74-92), called by
`search_tweets` on every constructed parameter set: its three sequential
statements, each able to raise. -/
def validateDates (start_date end_date : Option String) : Except String Unit :=
  (checkFormat start_date "start_date must be in YYYY-MM-DD format").bind fun _ =>
    (checkFormat end_date "end_date must be in YYYY-MM-DD format").bind fun _ =>
      checkOrder start_date end_date

end TwitterSearchParams

/-! ### Concrete collaborator stubs used by witnesses and counterexamples -/

deriving instance DecidableEq for Except

/-- A `yaml.safe_load` stub that always fails (or yields a falsy value). -/
def parseNoneAD : String → Option AnalysisDict := fun _ => none

/-- A pattern-dictionary parse stub that always fails. -/
def parseNonePD : String → Option PatternDict := fun _ => none

/-- A queries-dictionary parse stub that always fails. -/
def parseNoneQD : String → Option QueriesDict := fun _ => none

/-- A model stub whose every invocation raises. -/
def invokeFail : Nat → Except Unit String := fun _ => Except.error ()

/-- A model stub returning a fixed non-empty response on every attempt. -/
def invokeOkX : Nat → Except Unit String := fun _ => Except.ok "x"

/-- A parse stub decoding to a single well-formed content analysis. -/
def parseOneAnalysis : String → Option AnalysisDict :=
  fun _ => some ⟨some [⟨YVal.num 0, YVal.str "a", YVal.num 1⟩]⟩

/-- A parse stub decoding to one analysis with out-of-range scores. -/
def parseOutOfRange : String → Option AnalysisDict :=
  fun _ => some ⟨some [⟨YVal.num 2, YVal.str "x", YVal.num 3⟩]⟩

def oneText : List TextData := [{}]

def twoTexts : List TextData := [{}, {}]

def sampleAssessments : List SlanderAnalysisResult :=
  [⟨1, "a", 1/2⟩, ⟨0, "b", 1/2⟩]

/-- A raw twitter query whose `section` is the invalid value "trending". -/
def rawTrendingQuery : RawTwitterQuery :=
  { query := YVal.str "q", description := YVal.str "d", «section» := YVal.str "trending" }

/-- A raw twitter query with no `section` key at all. -/
def rawNoSectionQuery : RawTwitterQuery :=
  { query := YVal.str "q", description := YVal.str "d" }

/-- A raw twitter query whose start date is after its end date. -/
def rawBadDatesQuery : RawTwitterQuery :=
  { query := YVal.str "q", description := YVal.str "d",
    start_date := YVal.str "2024-05-01", end_date := YVal.str "2024-01-01" }

/-! ## Theorems -/

/-! ### The fence-cleaning step -/
theorem headTicks_cons_tick (cs : List Char) :
    headTicks (tick :: cs) = headTicks cs + 1 := by
  simp [headTicks]

theorem headTicks_cons_ne {c : Char} (hc : c ≠ tick) (cs : List Char) :
    headTicks (c :: cs) = 0 := by
  simp [headTicks, hc]

theorem two_le_headTicks_of_leading {X : List Char} (h : [tick, tick] <+: X) :
    2 ≤ headTicks X := by
  obtain ⟨t, ht⟩ := h
  subst ht
  simp [headTicks]

theorem tick3_prefix_cons {c : Char} {X : List Char} (h : tick3 <+: c :: X) :
    c = tick ∧ [tick, tick] <+: X := by
  rw [tick3, show [tick, tick, tick] = tick :: [tick, tick] from rfl,
    List.cons_prefix_cons] at h
  exact ⟨h.1.symm, h.2⟩

/-- Core invariant of `removeTicks`: the result holds no fence marker, and
removal never increases the count of leading backticks. -/
theorem removeTicks_spec (s : List Char) :
    headTicks (removeTicks s) ≤ headTicks s ∧ ¬ tick3 <:+: removeTicks s := by
  induction s using removeTicks.induct with
  | case1 =>
    refine ⟨le_rfl, ?_⟩
    intro h
    have := h.length_le
    simp [removeTicks, tick3] at this
  | case2 c =>
    refine ⟨le_rfl, ?_⟩
    intro h
    have := h.length_le
    simp [removeTicks, tick3] at this
  | case3 c d =>
    refine ⟨le_rfl, ?_⟩
    intro h
    have := h.length_le
    simp [removeTicks, tick3] at this
  | case4 c d e cs htick ih =>
    obtain ⟨hc, hd, he⟩ := htick
    subst hc; subst hd; subst he
    rw [removeTicks, if_pos ⟨rfl, rfl, rfl⟩]
    refine ⟨le_trans ih.1 ?_, ih.2⟩
    simp [headTicks]
    omega
  | case5 c d e cs htick ih =>
    rw [removeTicks, if_neg htick]
    constructor
    · by_cases hc : c = tick
      · subst hc
        rw [headTicks_cons_tick, headTicks_cons_tick]
        exact Nat.succ_le_succ ih.1
      · rw [headTicks_cons_ne hc]
        exact Nat.zero_le _
    · intro h
      rcases List.infix_cons_iff.mp h with h | h
      · obtain ⟨hc, hpre⟩ := tick3_prefix_cons h
        subst hc
        have h2 : 2 ≤ headTicks (removeTicks (d :: e :: cs)) :=
          two_le_headTicks_of_leading hpre
        have h3 : headTicks (d :: e :: cs) ≤ 1 := by
          by_cases hd : d = tick
          · subst hd
            have he : e ≠ tick := by
              intro he; exact htick ⟨rfl, rfl, he⟩
            rw [headTicks_cons_tick, headTicks_cons_ne he]
          · rw [headTicks_cons_ne hd]
            omega
        have := le_trans h2 (le_trans ih.1 h3)
        omega
      · exact ih.2 h

theorem noTriple_removeTicks (s : List Char) : ¬ tick3 <:+: removeTicks s :=
  (removeTicks_spec s).2

/-- A string with no fence marker is left unchanged by `removeTicks`. -/
theorem removeTicks_eq_self {s : List Char} (h : ¬ tick3 <:+: s) :
    removeTicks s = s := by
  induction s using removeTicks.induct with
  | case1 => rfl
  | case2 c => rfl
  | case3 c d => rfl
  | case4 c d e cs htick ih =>
    obtain ⟨hc, hd, he⟩ := htick
    subst hc; subst hd; subst he
    exact absurd ( List.IsPrefix.isInfix ⟨cs, rfl⟩) h
  | case5 c d e cs htick ih =>
    rw [removeTicks, if_neg htick]
    have htail : ¬ tick3 <:+: d :: e :: cs := fun hin =>
      h ( List.infix_cons_iff.mpr (Or.inr hin))
    rw [ih htail]

/-- A string with no fence marker has no `yaml`-fence either, so
`removeTickYaml` leaves it unchanged. -/
theorem removeTickYaml_eq_self {s : List Char} (h : ¬ tick3 <:+: s) :
    removeTickYaml s = s := by
  induction s using removeTickYaml.induct with
  | case1 c1 c2 c3 c4 c5 c6 c7 cs hpat ih =>
    obtain ⟨h1, h2, h3, _, _, _, _⟩ := hpat
    subst h1; subst h2; subst h3
    exact absurd ( List.IsPrefix.isInfix ⟨c4 :: c5 :: c6 :: c7 :: cs, rfl⟩) h
  | case2 c1 c2 c3 c4 c5 c6 c7 cs hpat ih =>
    rw [removeTickYaml, if_neg hpat]
    have htail : ¬ tick3 <:+: c2 :: c3 :: c4 :: c5 :: c6 :: c7 :: cs := fun hin =>
      h ( List.infix_cons_iff.mpr (Or.inr hin))
    rw [ih htail]
  | case3 s hs =>
    rw [removeTickYaml.eq_def]
    split
    next c1 c2 c3 c4 c5 c6 c7 cs => exact absurd rfl (hs c1 c2 c3 c4 c5 c6 c7 cs)
    next => rfl

/-- A prefix of a list whose `dropWhile` is trivial also has a trivial
`dropWhile`. -/
theorem dropWhile_eq_self_mono {p : Char → Bool} {m l : List Char}
    (hl : List.dropWhile p l = l) (hm : m <+: l) : List.dropWhile p m = m := by
  cases m with
  | nil => rfl
  | cons c m' =>
    obtain ⟨t, ht⟩ := hm
    subst ht
    rw [List.dropWhile_eq_self_iff] at hl
    have hpc : ¬ p c := by simpa using hl (by simp)
    simp [List.dropWhile_cons_of_neg hpc]

theorem pyStrip_part_of_self (s : List Char) : pyStrip s <:+: s :=
  List.IsInfix.trans
    ( List.IsPrefix.isInfix ( List.rdropWhile_prefix _ _))
    ( List.IsSuffix.isInfix (List.dropWhile_suffix _))

theorem pyStrip_idem (s : List Char) : pyStrip (pyStrip s) = pyStrip s := by
  unfold pyStrip
  have h1 : List.dropWhile Char.isWhitespace
      (List.rdropWhile Char.isWhitespace (List.dropWhile Char.isWhitespace s)) =
      List.rdropWhile Char.isWhitespace (List.dropWhile Char.isWhitespace s) :=
    dropWhile_eq_self_mono (List.dropWhile_idempotent _ _)
      ( List.rdropWhile_prefix _ _)
  rw [h1, List.rdropWhile_idempotent]

/-- The cleaned text holds no fence marker at all, anywhere. -/
theorem noTriple_cleanChars (s : List Char) : ¬ tick3 <:+: cleanChars s :=
  fun h => noTriple_removeTicks (removeTickYaml s) (h.trans (pyStrip_part_of_self _))

theorem cleanChars_idem (s : List Char) : cleanChars (cleanChars s) = cleanChars s := by
  have hnt : ¬ tick3 <:+: cleanChars s := noTriple_cleanChars s
  conv_lhs => rw [cleanChars, removeTickYaml_eq_self hnt, removeTicks_eq_self hnt]
  show pyStrip (pyStrip (removeTicks (removeTickYaml s))) = _
  exact pyStrip_idem _
/-! ### Retry-loop and aggregation helpers -/

theorem eq_error_of_isError {ε α : Type} {x : Except ε α} (h : isError x = true) :
    ∃ err, x = Except.error err := by
  cases x with
  | error err => exact ⟨err, rfl⟩
  | ok v => simp [isError] at h

/-- When the first attempt's body succeeds, its list is returned as-is. -/
theorem analyze_first_success (parse : String → Option AnalysisDict)
    (invoke : Nat → Except Unit String) (texts : List TextData)
    (rs : List SlanderAnalysisResult)
    (h : runAnalysisAttempt parse (invoke 0) = Except.ok rs) :
    analyzeMultipleTexts parse invoke texts = rs := by
  simp [analyzeMultipleTexts, analyzeLoop, h]

/-- When all 3 attempts fail, the degraded per-text fallback is returned. -/
theorem analyze_all_fail_eq (parse : String → Option AnalysisDict)
    (invoke : Nat → Except Unit String) (texts : List TextData)
    (h : ∀ i, i < 3 → isError (runAnalysisAttempt parse (invoke i)) = true) :
    analyzeMultipleTexts parse invoke texts =
      texts.map fun _ => defaultFailedAssessment := by
  obtain ⟨e0, h0⟩ := eq_error_of_isError (h 0 (by omega))
  obtain ⟨e1, h1⟩ := eq_error_of_isError (h 1 (by omega))
  obtain ⟨e2, h2⟩ := eq_error_of_isError (h 2 (by omega))
  simp [analyzeMultipleTexts, analyzeLoop, h0, h1, h2]

/-- Every branch of `calculate_overall_analysis` on a non-empty input
carries the already-computed weighted score. -/
theorem combined_risk_eq (invoke : Except Unit String)
    (parse : String → Option PatternDict) (results : List SlanderAnalysisResult)
    (h : results ≠ []) :
    (calculateOverallAnalysis invoke parse results).1.combined_risk_score =
      weightedRisk results := by
  unfold calculateOverallAnalysis
  rw [if_neg (by simpa using h)]
  dsimp only
  repeat' split
  all_goals rfl

/-- Any failure of the narrative step yields the fixed error narratives
around the already-computed score. -/
theorem overall_fallback_eq (invoke : Except Unit String)
    (parse : String → Option PatternDict) (results : List SlanderAnalysisResult)
    (h : results ≠ [])
    (hfail : invoke = Except.error () ∨ ∃ c, invoke = Except.ok c ∧
      (c = "" ∨ cleanYamlResponse c = "" ∨ parse (cleanYamlResponse c) = none)) :
    calculateOverallAnalysis invoke parse results =
      (errorOverall (weightedRisk results), 1) := by
  unfold calculateOverallAnalysis
  rw [if_neg (by simpa using h)]
  rcases hfail with rfl | ⟨c, rfl, hc⟩
  · rfl
  · dsimp only
    by_cases hc0 : c = ""
    · rw [if_pos hc0]
    · rw [if_neg hc0]
      rcases hc with rfl | hclean | hparse
      · exact absurd rfl hc0
      · rw [if_pos hclean]
      · by_cases h1 : cleanYamlResponse c = ""
        · rw [if_pos h1]
        · rw [if_neg h1, hparse]

/-- When all 3 attempts of `generate_queries` fail, the empty plan is
returned after exactly 3 invocations. -/
theorem queryLoop_all_fail (dd : String × String)
    (parse : String → Option QueriesDict) (invoke : Nat → Except Unit String)
    (h : ∀ i, i < 3 → isError (runQueryAttempt dd parse (invoke i)) = true) :
    generateQueries dd parse invoke = (⟨[], []⟩, 3) := by
  obtain ⟨e0, h0⟩ := eq_error_of_isError (h 0 (by omega))
  obtain ⟨e1, h1⟩ := eq_error_of_isError (h 1 (by omega))
  obtain ⟨e2, h2⟩ := eq_error_of_isError (h 2 (by omega))
  simp [generateQueries, queryLoop, h0, h1, h2]

/-! ### The claims -/

/-- Claim C1, counterexample: with two input texts and a model response
decoding to a single well-formed analysis, `analyze_multiple_texts`
returns 1 assessment, not `len(texts) = 2` — the success path enforces no
length/index invariant. -/
theorem analyze_length_counterexample :
    (analyzeMultipleTexts parseOneAnalysis invokeOkX twoTexts).length = 1 ∧
    twoTexts.length = 2 := by decide

/-- Claim C1 (amended): `analyze_multiple_texts` performs no index-tag
validation or reordering — when the first attempt's body succeeds, the
decoded `content_analyses` list is returned as-is, its length set by the
model rather than by `len(texts)`; only on the all-retries-exhausted path
is the result guaranteed to have exactly `len(texts)` entries. -/
theorem analyze_no_index_enforcement (parse : String → Option AnalysisDict)
    (invoke : Nat → Except Unit String) (texts : List TextData) :
    (∀ rs, runAnalysisAttempt parse (invoke 0) = Except.ok rs →
      analyzeMultipleTexts parse invoke texts = rs) ∧
    ((∀ i, i < 3 → isError (runAnalysisAttempt parse (invoke i)) = true) →
      (analyzeMultipleTexts parse invoke texts).length = texts.length) := by
  constructor
  · intro rs h
    exact analyze_first_success parse invoke texts rs h
  · intro h
    rw [analyze_all_fail_eq parse invoke texts h]
    simp

/-- Witness for C1 (amended) at concrete inputs: a decoded singleton list
is returned as-is for two texts, and a stub failing all 3 attempts yields
a length-matched result. -/
theorem analyze_no_index_enforcement_witness :
    analyzeMultipleTexts parseOneAnalysis invokeOkX twoTexts = [⟨0, "a", 1⟩] ∧
    (analyzeMultipleTexts parseNoneAD invokeFail twoTexts).length = twoTexts.length :=
  ⟨(analyze_no_index_enforcement parseOneAnalysis invokeOkX twoTexts).1
      [⟨0, "a", 1⟩] (by decide),
    (analyze_no_index_enforcement parseNoneAD invokeFail twoTexts).2
      (fun _ _ => rfl)⟩

/-- Claim C2: if every one of the 3 attempts fails, `analyze_multiple_texts`
does not raise and returns exactly `len(texts)` degraded assessments, each
with zero risk and confidence and the explanatory placeholder text. -/
theorem analyze_all_retries_degraded (parse : String → Option AnalysisDict)
    (invoke : Nat → Except Unit String) (texts : List TextData)
    (h : ∀ i, i < 3 → isError (runAnalysisAttempt parse (invoke i)) = true) :
    analyzeMultipleTexts parse invoke texts =
      (texts.map fun _ => defaultFailedAssessment) ∧
    (analyzeMultipleTexts parse invoke texts).length = texts.length ∧
    ∀ r ∈ analyzeMultipleTexts parse invoke texts,
      r.risk_score = 0 ∧ r.confidence_score = 0 ∧
        r.context_analysis =
          "Analysis failed after multiple attempts. Please try again." := by
  have hmain := analyze_all_fail_eq parse invoke texts h
  refine ⟨hmain, by rw [hmain]; simp, ?_⟩
  intro r hr
  rw [hmain] at hr
  obtain ⟨t, _, rfl⟩ := List.mem_map.mp hr
  exact ⟨rfl, rfl, rfl⟩

/-- Witness for C2: an always-raising model stub on two texts. -/
theorem analyze_all_retries_degraded_witness :
    analyzeMultipleTexts parseNoneAD invokeFail twoTexts =
      (twoTexts.map fun _ => defaultFailedAssessment) :=
  (analyze_all_retries_degraded parseNoneAD invokeFail twoTexts (fun _ _ => rfl)).1

/-- Claim C3: for non-empty input the combined risk score equals
Σ(risk·confidence)/Σ(confidence), falling back to the unweighted mean when
Σ(confidence) = 0, whatever the narrative model call does. -/
theorem combined_risk_weighted_formula (invoke : Except Unit String)
    (parse : String → Option PatternDict) (results : List SlanderAnalysisResult)
    (h : results ≠ []) :
    (calculateOverallAnalysis invoke parse results).1.combined_risk_score =
      if (results.map fun r => r.confidence_score).sum = 0 then
        (results.map fun r => r.risk_score).sum / results.length
      else
        (results.map fun r => r.risk_score * r.confidence_score).sum /
          (results.map fun r => r.confidence_score).sum :=
  (combined_risk_eq invoke parse results h).trans rfl

/-- Witness for C3: two assessments with confidences 1/2 each under a
failing narrative call. -/
theorem combined_risk_weighted_formula_witness :
    sampleAssessments ≠ [] ∧
    (calculateOverallAnalysis (Except.error ()) parseNonePD
        sampleAssessments).1.combined_risk_score =
      if (sampleAssessments.map fun r => r.confidence_score).sum = 0 then
        (sampleAssessments.map fun r => r.risk_score).sum / sampleAssessments.length
      else
        (sampleAssessments.map fun r => r.risk_score * r.confidence_score).sum /
          (sampleAssessments.map fun r => r.confidence_score).sum :=
  ⟨by decide,
    combined_risk_weighted_formula (Except.error ()) parseNonePD
      sampleAssessments (by decide)⟩

/-- Claim C4: `calculate_overall_analysis` never loses the numeric result —
on non-empty input the combined score is always the weighted score, and any
narrative failure (raised call, empty response, empty cleaned text, or
unparsable text) yields the two fixed error narratives. -/
theorem overall_analysis_never_blocks_numeric (invoke : Except Unit String)
    (parse : String → Option PatternDict) (results : List SlanderAnalysisResult)
    (h : results ≠ []) :
    (calculateOverallAnalysis invoke parse results).1.combined_risk_score =
      weightedRisk results ∧
    ((invoke = Except.error () ∨ ∃ c, invoke = Except.ok c ∧
        (c = "" ∨ cleanYamlResponse c = "" ∨ parse (cleanYamlResponse c) = none)) →
      (calculateOverallAnalysis invoke parse results).1.pattern_analysis =
          "Error generating pattern analysis." ∧
        (calculateOverallAnalysis invoke parse results).1.cross_references =
          "Error generating cross-reference analysis.") := by
  refine ⟨combined_risk_eq invoke parse results h, fun hfail => ?_⟩
  rw [overall_fallback_eq invoke parse results h hfail]
  exact ⟨rfl, rfl⟩

/-- Witness for C4: a raising narrative call on two assessments. -/
theorem overall_analysis_never_blocks_numeric_witness :
    (calculateOverallAnalysis (Except.error ()) parseNonePD
        sampleAssessments).1.combined_risk_score = weightedRisk sampleAssessments ∧
    (calculateOverallAnalysis (Except.error ()) parseNonePD
        sampleAssessments).1.pattern_analysis =
        "Error generating pattern analysis." ∧
      (calculateOverallAnalysis (Except.error ()) parseNonePD
          sampleAssessments).1.cross_references =
        "Error generating cross-reference analysis." := by
  have h := overall_analysis_never_blocks_numeric (Except.error ()) parseNonePD
    sampleAssessments (by decide)
  exact ⟨h.1, h.2 (Or.inl rfl)⟩

/-- Claim C5: a model collaborator failing on every attempt makes
`generate_queries` return the empty plan (both platform lists empty) after
exactly 3 invocation attempts, without raising. -/
theorem generate_queries_exhausted_empty_plan (dd : String × String)
    (parse : String → Option QueriesDict) (invoke : Nat → Except Unit String)
    (h : ∀ i, i < 3 → isError (runQueryAttempt dd parse (invoke i)) = true) :
    (generateQueries dd parse invoke).1.twitter = [] ∧
    (generateQueries dd parse invoke).1.youtube = [] ∧
    (generateQueries dd parse invoke).2 = 3 := by
  rw [queryLoop_all_fail dd parse invoke h]
  exact ⟨rfl, rfl, rfl⟩

/-- Witness for C5: an always-raising model stub. -/
theorem generate_queries_exhausted_empty_plan_witness :
    (generateQueries ("2024-04-21", "2024-05-21") parseNoneQD invokeFail).1.twitter = [] ∧
    (generateQueries ("2024-04-21", "2024-05-21") parseNoneQD invokeFail).1.youtube = [] ∧
    (generateQueries ("2024-04-21", "2024-05-21") parseNoneQD invokeFail).2 = 3 :=
  generate_queries_exhausted_empty_plan ("2024-04-21", "2024-05-21")
    parseNoneQD invokeFail (fun _ _ => rfl)

/-- Claim C6, counterexample: decoding a model entry with `risk_score = 2`
and `confidence_score = 3` succeeds, and the pipeline returns it — an
out-of-range `RiskAssessment` is constructible. -/
theorem risk_bounds_counterexample :
    (analyzeMultipleTexts parseOutOfRange invokeOkX oneText).map
        (fun r => r.risk_score) = [2] ∧
    ¬ ((2 : ℚ) ≤ 1) := by decide

/-- Claim C6 (amended): the degraded fallback assessments do satisfy the
0-1 bounds, but decoded values are not range-checked — a `RiskAssessment`
with `risk_score` outside [0,1] is constructible from model output. -/
theorem risk_bounds_amended :
    (0 ≤ defaultFailedAssessment.risk_score ∧ defaultFailedAssessment.risk_score ≤ 1 ∧
      0 ≤ defaultFailedAssessment.confidence_score ∧
        defaultFailedAssessment.confidence_score ≤ 1) ∧
    ∃ raw r, SlanderAnalysisResult.ofRaw raw = Except.ok r ∧ 1 < r.risk_score :=
  ⟨by decide, ⟨YVal.num 2, YVal.str "x", YVal.num 3⟩, ⟨2, "x", 3⟩, rfl, by norm_num⟩

/-- Claim C7, counterexample: a missing `section` stays `None` (it is not
normalized to "latest"), and the twitter tool's `TwitterSearchParams`
rejects "trending" with a validation error instead of normalizing it. -/
theorem section_normalization_counterexample :
    TwitterSearchQuery.ofRaw rawNoSectionQuery =
      Except.ok ⟨"q", "d", none, none, none, none⟩ ∧
    (none : Option String) ≠ some "latest" ∧
    TwitterSearchParams.validateSection (some "trending") =
      Except.error "section must be either 'top' or 'latest'" := by decide

/-- Claim C7 (amended): in the query-generator's `TwitterSearchQuery`, an
invalid section such as "trending" is normalized to "latest" without
error, while a missing section remains `None`; in the twitter tool's
`TwitterSearchParams`, an invalid section is instead rejected with a
validation error. -/
theorem section_normalization_amended :
    TwitterSearchQuery.ofRaw rawTrendingQuery =
      Except.ok ⟨"q", "d", some "latest", none, none, none⟩ ∧
    TwitterSearchQuery.ofRaw rawNoSectionQuery =
      Except.ok ⟨"q", "d", none, none, none, none⟩ ∧
    TwitterSearchParams.validateSection (some "trending") =
      Except.error "section must be either 'top' or 'latest'" := by decide

/-- Claim C8, counterexample: constructing the query-generator's
`TwitterSearchQuery` with `start_date = 2024-05-01` after
`end_date = 2024-01-01` succeeds — no cross-field date check runs there. -/
theorem date_order_accepted_counterexample :
    TwitterSearchQuery.ofRaw rawBadDatesQuery =
      Except.ok ⟨"q", "d", none, some ⟨2024, 5, 1⟩, some ⟨2024, 1, 1⟩, none⟩ ∧
    isError (TwitterSearchQuery.ofRaw rawBadDatesQuery) = false := by decide

/-- Claim C8 (amended): the ordering check lives in
`TwitterSearchParams.validate_dates` (run by `search_tweets` on every
search): any well-formed start date strictly after the end date is
rejected with the "start_date must be before end_date" validation error;
the query-generator variant performs no such check. -/
theorem validate_dates_rejects_start_after_end (s e : String) (ds de : Date)
    (hs : parseDate s = some ds) (he : parseDate e = some de)
    (hlt : de.key < ds.key) :
    TwitterSearchParams.validateDates (some s) (some e) =
      Except.error "start_date must be before end_date" := by
  have hs0 : s ≠ "" := by
    rintro rfl
    exact Option.noConfusion ((show parseDate "" = none from rfl).symm.trans hs)
  have he0 : e ≠ "" := by
    rintro rfl
    exact Option.noConfusion ((show parseDate "" = none from rfl).symm.trans he)
  have h1 : TwitterSearchParams.checkFormat (some s)
      "start_date must be in YYYY-MM-DD format" = Except.ok () := by
    simp [TwitterSearchParams.checkFormat, hs]
  have h2 : TwitterSearchParams.checkFormat (some e)
      "end_date must be in YYYY-MM-DD format" = Except.ok () := by
    simp [TwitterSearchParams.checkFormat, he]
  rw [TwitterSearchParams.validateDates, h1, h2]
  show TwitterSearchParams.checkOrder (some s) (some e) = _
  simp [TwitterSearchParams.checkOrder, hs, he, hs0, he0, hlt]

/-- Witness for C8 (amended) at the spec's concrete dates. -/
theorem validate_dates_rejects_start_after_end_witness :
    TwitterSearchParams.validateDates (some "2024-05-01") (some "2024-01-01") =
      Except.error "start_date must be before end_date" :=
  validate_dates_rejects_start_after_end "2024-05-01" "2024-01-01"
    ⟨2024, 5, 1⟩ ⟨2024, 1, 1⟩ (by decide) (by decide) (by decide)

/-- Claim C9: on the empty input list `calculate_overall_analysis` returns
score 0 with the fixed "No content analyzed." narratives and performs no
model invocation at all (count 0), for every collaborator behaviour. -/
theorem overall_analysis_empty_input (invoke : Except Unit String)
    (parse : String → Option PatternDict) :
    calculateOverallAnalysis invoke parse [] =
      (⟨0, "No content analyzed.", "No content analyzed."⟩, 0) := rfl

/-- Claim C10: the fence-cleaning step is idempotent, its output holds no
occurrence of the three-backtick marker anywhere, and it removes fence
markers in the middle of the text, not only at its ends. -/
theorem clean_response_idempotent_no_fence (s : String) :
    cleanYamlResponse (cleanYamlResponse s) = cleanYamlResponse s ∧
    ¬ tick3 <:+: (cleanYamlResponse s).data ∧
    cleanYamlResponse "a ``` b ```yaml c" = "a  b  c" := by
  refine ⟨?_, noTriple_cleanChars s.data, by decide⟩
  show (⟨cleanChars (cleanChars s.data)⟩ : String) = (⟨cleanChars s.data⟩ : String)
  rw [cleanChars_idem]

end SlanderDemo
